import Mathlib

/-!
Shallow embedding of the ambient 3D animation subsystem of the five design
skins (Design 1 "Midnight Cosmos" in part_000, Design 3 "Aurora Glass" and
Design 5 "Botanical Loft" in part_001, Design 4 "Neo-Tokyo" and Design 2
"Bauhaus Living" in Design4.tsx).

Each React component that registers a useFrame callback is modelled as a
pure update function on a transform record; the value
state.clock.elapsedTime read by every callback is the parameter t, and
Math.sin is modelled by Real.sin.  Mutation of the mesh ref is modelled as
returning the updated record.
-/

open Real

/-- A 3D vector, standing for the three.js Vector3 slots the code writes. -/
structure Vec3 where
  x : ℝ
  y : ℝ
  z : ℝ

/-- The mutable per-mesh state touched by the useFrame callbacks: the
current translation (ref.current.position) and the current Euler angles
(the field named after the spin of the mesh, written rot here). -/
structure Transform where
  pos : Vec3
  rot : Vec3

/-- The zero vector. -/
def zeroV : Vec3 := ⟨0, 0, 0⟩

/-- The all-zero transform, the state of a fresh mesh before any frame. -/
def zeroT : Transform := ⟨zeroV, zeroV⟩

/-- part_000 lines 24-27 (CosmicOrb): per frame,
rot.x = sin(t * speed * 0.3) * 0.2 and rot.y increases by 0.003 * speed. -/
noncomputable def CosmicOrb.useFrame (speed t : ℝ) (m : Transform) : Transform :=
  { m with rot := { m.rot with
      x := Real.sin (t * speed * 0.3) * 0.2,
      y := m.rot.y + 0.003 * speed } }

/-- part_000 lines 46-49 (FloatingRing): rot.x = t * 0.2 and
rot.z = sin(t * 0.3) * 0.5, both assigned. -/
noncomputable def FloatingRing.useFrame (t : ℝ) (m : Transform) : Transform :=
  { m with rot := { m.rot with
      x := t * 0.2,
      z := Real.sin (t * 0.3) * 0.5 } }

/-- part_001 lines 161-165 (GlassOrb): rot.y increases by 0.003 and
pos.y = position[1] + sin(t * 0.5) * 0.3, where position[1] is the base
y coordinate passed at construction. -/
noncomputable def GlassOrb.useFrame (baseY t : ℝ) (m : Transform) : Transform :=
  { m with
      rot := { m.rot with y := m.rot.y + 0.003 },
      pos := { m.pos with y := baseY + Real.sin (t * 0.5) * 0.3 } }

/-- part_001 lines 1279-1282 (OrganicBlob): rot.y increases by 0.002 and
rot.x = sin(t * 0.2) * 0.1. -/
noncomputable def OrganicBlob.useFrame (t : ℝ) (m : Transform) : Transform :=
  { m with rot := { m.rot with
      y := m.rot.y + 0.002,
      x := Real.sin (t * 0.2) * 0.1 } }

/-- part_001 lines 1303-1306 (LeafShape): rot.z = sin(t * 0.3) * 0.15 and
rot.y increases by 0.003. -/
noncomputable def LeafShape.useFrame (t : ℝ) (m : Transform) : Transform :=
  { m with rot := { m.rot with
      z := Real.sin (t * 0.3) * 0.15,
      y := m.rot.y + 0.003 } }

/-- Design4.tsx lines 54-57 (NeonTorus): rot.x = t * 0.3 and
rot.y = t * 0.2, both assigned. -/
def NeonTorus.useFrame (t : ℝ) (m : Transform) : Transform :=
  { m with rot := { m.rot with
      x := t * 0.3,
      y := t * 0.2 } }

/-- Design4.tsx lines 70-73 (NeonOctahedron): rot.y increases by 0.01 and
rot.z = sin(t * 0.4) * 0.3. -/
noncomputable def NeonOctahedron.useFrame (t : ℝ) (m : Transform) : Transform :=
  { m with rot := { m.rot with
      y := m.rot.y + 0.01,
      z := Real.sin (t * 0.4) * 0.3 } }

/-- Design4.tsx lines 798-801 (GeoBlock): rot.y increases by 0.005 and
rot.x = sin(t * 0.3) * 0.1. -/
noncomputable def GeoBlock.useFrame (t : ℝ) (m : Transform) : Transform :=
  { m with rot := { m.rot with
      y := m.rot.y + 0.005,
      x := Real.sin (t * 0.3) * 0.1 } }

/-- Design4.tsx lines 813-815 (GeoCylinder): rot.z = t * 0.2, assigned. -/
def GeoCylinder.useFrame (t : ℝ) (m : Transform) : Transform :=
  { m with rot := { m.rot with z := t * 0.2 } }

/-- Design4.tsx lines 828-830 (GeoSphere): pos.y = position[1] +
sin(t * 0.5) * 0.2, where position[1] is the base y coordinate. -/
noncomputable def GeoSphere.useFrame (baseY t : ℝ) (m : Transform) : Transform :=
  { m with pos := { m.pos with y := baseY + Real.sin (t * 0.5) * 0.2 } }

/-- part_000 lines 72-75 (ParticleField useFrame): the aggregate spin of
the points object is assigned y = t * 0.02 and x = sin(t * 0.01) * 0.1. -/
noncomputable def ParticleField.rotFrame (t : ℝ) (r : Vec3) : Vec3 :=
  { r with
      y := t * 0.02,
      x := Real.sin (t * 0.01) * 0.1 }

/-- The entity kinds whose useFrame callbacks appear in the five skins.
particleCloud is the aggregate points object of part_000 ParticleField. -/
inductive EntityKind
  | cosmicOrb
  | floatingRing
  | glassOrb
  | organicBlob
  | leafShape
  | neonTorus
  | neonOctahedron
  | geoBlock
  | geoCylinder
  | geoSphere
  | particleCloud
  deriving DecidableEq

/-- The static per-entity construction parameters read by the callbacks:
the base position prop and the speed prop (speed is only read by
CosmicOrb; GlassOrb and GeoSphere read position[1]). -/
structure AnimParams where
  basePos : Vec3
  speed : ℝ

/-- Dispatcher over entity kinds: one frame of the matching useFrame
callback at elapsed time t. -/
noncomputable def animate (k : EntityKind) (p : AnimParams) (t : ℝ)
    (m : Transform) : Transform :=
  match k with
  | .cosmicOrb => CosmicOrb.useFrame p.speed t m
  | .floatingRing => FloatingRing.useFrame t m
  | .glassOrb => GlassOrb.useFrame p.basePos.y t m
  | .organicBlob => OrganicBlob.useFrame t m
  | .leafShape => LeafShape.useFrame t m
  | .neonTorus => NeonTorus.useFrame t m
  | .neonOctahedron => NeonOctahedron.useFrame t m
  | .geoBlock => GeoBlock.useFrame t m
  | .geoCylinder => GeoCylinder.useFrame t m
  | .geoSphere => GeoSphere.useFrame p.basePos.y t m
  | .particleCloud => { m with rot := ParticleField.rotFrame t m.rot }

/-- Running n frames at a fixed virtual step dt: frame i (1-based) runs
the callback at elapsed time i * dt, matching a clock advanced by dt
before each tick. -/
noncomputable def runFrames (k : EntityKind) (p : AnimParams) (dt : ℝ) :
    ℕ → Transform → Transform
  | 0, m => m
  | n + 1, m => animate k p (((n + 1 : ℕ) : ℝ) * dt) (runFrames k p dt n m)

/-- part_000 lines 62-70 (ParticleField positions memo): position i is
((r - 0.5) * 20, (r - 0.5) * 20, (r - 0.5) * 10) with one fresh
Math.random() value per coordinate; rand j models the j-th call to
Math.random(), so 0 <= rand j < 1. -/
def ParticleField.positionsGen (count : ℕ) (rand : ℕ → ℝ) : List Vec3 :=
  (List.range count).map fun i =>
    ⟨(rand (3 * i) - 0.5) * 20,
     (rand (3 * i + 1) - 0.5) * 20,
     (rand (3 * i + 2) - 0.5) * 10⟩

/-- The state of the points object: the generated per-particle positions
and the aggregate spin angles. -/
structure PField where
  positions : List Vec3
  rot : Vec3

/-- One frame of the ParticleField useFrame callback (part_000 lines
72-75): only the two aggregate spin scalars are written. -/
noncomputable def ParticleField.useFrame (t : ℝ) (f : PField) : PField :=
  { f with rot := ParticleField.rotFrame t f.rot }

/-- The only failure the ParticleField construction path can produce.
The component body has no validation code at all; the one thing that can
fail is the host typed-array allocation: in JavaScript,
new Float32Array(count * 3) throws a RangeError when count is negative.
hostRangeError models that unhandled host exception. -/
inductive InitError
  | hostRangeError (msg : String)
  deriving DecidableEq

/-- Construction of the particle positions for an arbitrary integer count
prop (part_000 lines 62-70).  The error branch is the host semantics of
new Float32Array with a negative length; for every non-negative count the
loop fills count positions with no check of any kind. -/
def ParticleField.init (count : ℤ) (rand : ℕ → ℝ) :
    Except InitError (List Vec3) :=
  if count < 0 then
    .error (.hostRangeError "invalid typed array length")
  else
    .ok (ParticleField.positionsGen count.toNat rand)

/-- Camera framing of a Canvas (position and field of view). -/
structure CameraCfg where
  pos : Vec3
  fov : ℝ

/-- The kinds of lights used in the scenes. -/
inductive LightKind
  | ambient
  | directional
  | point
  deriving DecidableEq

/-- One light of a scene: kind, optional world position, intensity and
optional color string. -/
structure LightCfg where
  kind : LightKind
  lpos : Option Vec3
  intensity : ℝ
  color : Option String

/-- One CosmicOrb element: position, color, speed, distort, size props. -/
structure OrbCfg where
  opos : Vec3
  color : String
  speed : ℝ
  distort : ℝ
  size : ℝ

/-- One FloatingRing element: position and color props. -/
structure RingCfg where
  rpos : Vec3
  color : String

/-- The declarative content of the Design 1 Canvas. -/
structure SceneCfg where
  camera : CameraCfg
  lights : List LightCfg
  orbs : List OrbCfg
  rings : List RingCfg
  particleCount : ℕ
  particleColor : String

/-- part_000 lines 93-114 (CosmicScene): the scene built for a given
theme flag, with every prop transcribed literally.  isDark only selects
between color strings. -/
def CosmicScene (isDark : Bool) : SceneCfg :=
  { camera := ⟨⟨0, 0, 6⟩, 60⟩,
    lights :=
      [⟨.ambient, none, 0.4, none⟩,
       ⟨.directional, some ⟨5, 5, 5⟩, 1,
         some (if isDark then "#a78bfa" else "#7c3aed")⟩,
       ⟨.point, some ⟨-3, -3, 2⟩, 0.8, some "#c084fc"⟩,
       ⟨.point, some ⟨3, 2, -2⟩, 0.5, some "#818cf8"⟩],
    orbs :=
      [⟨⟨-2.5, 1, -1⟩, if isDark then "#7c3aed" else "#a78bfa", 0.8, 0.5, 0.8⟩,
       ⟨⟨2.8, -0.5, 0⟩, if isDark then "#6366f1" else "#818cf8", 1.2, 0.3, 0.6⟩,
       ⟨⟨0.5, 2, -2⟩, "#c084fc", 0.6, 0.6, 0.5⟩,
       ⟨⟨-1.5, -2, 1⟩, "#a78bfa", 1, 0.4, 0.4⟩],
    rings :=
      [⟨⟨1.5, 1.5, -1⟩, if isDark then "#a78bfa" else "#7c3aed"⟩,
       ⟨⟨-2, -1, 0⟩, "#818cf8"⟩],
    particleCount := 200,
    particleColor := if isDark then "#c4b5fd" else "#7c3aed" }

/-- The color-free part of an orb element: everything the animator and
the geometry depend on. -/
def OrbCfg.geom (o : OrbCfg) : Vec3 × ℝ × ℝ × ℝ :=
  (o.opos, o.speed, o.distort, o.size)

/-- The color-free part of a light: kind, position and intensity. -/
def LightCfg.geom (l : LightCfg) : LightKind × Option Vec3 × ℝ :=
  (l.kind, l.lpos, l.intensity)

/-- The parameters of the speed-1 orb of the concrete test scenarios. -/
def orbP1 : AnimParams := ⟨zeroV, 1⟩

lemma runFrames_cosmicOrb_rotY (p : AnimParams) (dt : ℝ) (n : ℕ)
    (m : Transform) :
    (runFrames .cosmicOrb p dt n m).rot.y
      = m.rot.y + (n : ℝ) * (0.003 * p.speed) := by
  induction n with
  | zero => simp [runFrames]
  | succ k ih =>
    have : (runFrames .cosmicOrb p dt (k + 1) m).rot.y
        = (runFrames .cosmicOrb p dt k m).rot.y + 0.003 * p.speed := rfl
    rw [this, ih]
    push_cast
    ring

lemma runFrames_cosmicOrb_rotX (p : AnimParams) (dt : ℝ) (n : ℕ)
    (m : Transform) :
    (runFrames .cosmicOrb p dt (n + 1) m).rot.x
      = Real.sin ((((n + 1 : ℕ) : ℝ) * dt) * p.speed * 0.3) * 0.2 := rfl

/-- C1 counterexample: running the speed-1 orb over one second of elapsed
time at 60 ticks per second ends with an accumulated y angle of 0.18,
while 30 ticks per second over the same second ends at 0.09, so the final
transform depends on the tick count, not only on the elapsed time. -/
theorem tick_rate_changes_final_transform :
    (runFrames .cosmicOrb orbP1 (1 / 60) 60 zeroT).rot.y = 0.18 ∧
    (runFrames .cosmicOrb orbP1 (1 / 30) 30 zeroT).rot.y = 0.09 ∧
    (0.18 : ℝ) ≠ 0.09 := by
  refine ⟨?_, ?_, by norm_num⟩ <;>
    rw [runFrames_cosmicOrb_rotY] <;> norm_num [zeroT, zeroV, orbP1]

/-- C1 amended: after n + 1 frames at step dt, the assigned x angle of the
orb is sin(total_elapsed * speed * 0.3) * 0.2, a function of the total
elapsed time (n + 1) * dt alone, so it is frame-rate independent; the
accumulated y angle however equals the start value plus
(n + 1) * 0.003 * speed, proportional to the tick count, so halving the
tick rate over the same elapsed time halves the accumulated spin. -/
theorem orb_run_split_dependence (p : AnimParams) (dt : ℝ) (n : ℕ)
    (m : Transform) :
    (runFrames .cosmicOrb p dt (n + 1) m).rot.x
      = Real.sin ((((n + 1 : ℕ) : ℝ) * dt) * p.speed * 0.3) * 0.2 ∧
    (runFrames .cosmicOrb p dt (n + 1) m).rot.y
      = m.rot.y + ((n + 1 : ℕ) : ℝ) * (0.003 * p.speed) :=
  ⟨runFrames_cosmicOrb_rotX p dt n m, runFrames_cosmicOrb_rotY p dt (n + 1) m⟩

/-- C2: the orb callback assigns rot.x = sin(t * speed * 0.3) * 0.2 and
adds 0.003 * speed to rot.y each frame; a speed-1 orb started at the zero
transform and advanced 100 frames at any fixed virtual step dt therefore
ends with rot.y = 0.3 exactly and rot.x = sin(100 * dt * 0.3) * 0.2,
where 100 * dt is the total elapsed time. -/
theorem orb_formula_and_100_frame_scenario :
    (∀ speed t : ℝ, ∀ m : Transform,
        (CosmicOrb.useFrame speed t m).rot.x
          = Real.sin (t * speed * 0.3) * 0.2 ∧
        (CosmicOrb.useFrame speed t m).rot.y = m.rot.y + 0.003 * speed) ∧
    ∀ dt : ℝ,
      (runFrames .cosmicOrb orbP1 dt 100 zeroT).rot.y = 0.3 ∧
      (runFrames .cosmicOrb orbP1 dt 100 zeroT).rot.x
        = Real.sin (100 * dt * 0.3) * 0.2 := by
  refine ⟨fun speed t m => ⟨rfl, rfl⟩, fun dt => ⟨?_, ?_⟩⟩
  · rw [runFrames_cosmicOrb_rotY]
    norm_num [zeroT, zeroV, orbP1]
  · rw [runFrames_cosmicOrb_rotX orbP1 dt 99 zeroT]
    norm_num [orbP1]

/-- C3 counterexample: at the negative elapsed time t = -1 the orb
callback does not hold the previous transform: starting from the zero
transform, rot.y becomes 0.003, not 0. -/
theorem negative_time_updates_transform :
    (CosmicOrb.useFrame 1 (-1) zeroT).rot.y = 0.003 ∧
    ((0.003 : ℝ) ≠ 0) ∧ zeroT.rot.y = 0 := by
  refine ⟨?_, by norm_num, rfl⟩
  show zeroT.rot.y + 0.003 * 1 = 0.003
  norm_num [zeroT, zeroV]

/-- C3 amended: the callbacks contain no validation of the elapsed-time
input: for a negative t each animator applies its normal formula (the
orb still adds 0.003 * speed to rot.y and assigns
rot.x = sin(t * speed * 0.3) * 0.2, the blob still adds 0.002, the
octahedron 0.01, and the glass orb still writes its bob height), rather
than clamping to the last-known-good transform.  In this total real
model no crash is possible; the NaN case lies outside the model. -/
theorem animators_apply_formula_at_negative_time (speed t : ℝ)
    (m : Transform) (_h : t < 0) :
    (CosmicOrb.useFrame speed t m).rot.y = m.rot.y + 0.003 * speed ∧
    (CosmicOrb.useFrame speed t m).rot.x = Real.sin (t * speed * 0.3) * 0.2 ∧
    (OrganicBlob.useFrame t m).rot.y = m.rot.y + 0.002 ∧
    (NeonOctahedron.useFrame t m).rot.y = m.rot.y + 0.01 ∧
    (GlassOrb.useFrame m.pos.y t m).pos.y
      = m.pos.y + Real.sin (t * 0.5) * 0.3 :=
  ⟨rfl, rfl, rfl, rfl, rfl⟩

/-- Witness for the amended C3 theorem at the concrete input t = -1. -/
theorem animators_apply_formula_at_negative_time_witness :
    ((-1 : ℝ) < 0) ∧
    ((CosmicOrb.useFrame 1 (-1) zeroT).rot.y = zeroT.rot.y + 0.003 * 1 ∧
     (CosmicOrb.useFrame 1 (-1) zeroT).rot.x
       = Real.sin ((-1) * 1 * 0.3) * 0.2 ∧
     (OrganicBlob.useFrame (-1) zeroT).rot.y = zeroT.rot.y + 0.002 ∧
     (NeonOctahedron.useFrame (-1) zeroT).rot.y = zeroT.rot.y + 0.01 ∧
     (GlassOrb.useFrame zeroT.pos.y (-1) zeroT).pos.y
       = zeroT.pos.y + Real.sin ((-1) * 0.5) * 0.3) :=
  ⟨by norm_num,
   animators_apply_formula_at_negative_time 1 (-1) zeroT (by norm_num)⟩

/-- C4: for any model of Math.random (every drawn value in [0, 1)), the
generation with count = 200 yields exactly 200 positions, and every
position lies in [-10, 10] x [-10, 10] x [-5, 5], the half-width ranges
of the hard-coded bounds (20, 20, 10). -/
theorem particle_gen_count_and_bounds (rand : ℕ → ℝ)
    (h : ∀ n, 0 ≤ rand n ∧ rand n < 1) :
    (ParticleField.positionsGen 200 rand).length = 200 ∧
    ∀ v ∈ ParticleField.positionsGen 200 rand,
      (-10 ≤ v.x ∧ v.x ≤ 10) ∧ (-10 ≤ v.y ∧ v.y ≤ 10) ∧
      (-5 ≤ v.z ∧ v.z ≤ 5) := by
  constructor
  · simp [ParticleField.positionsGen]
  · intro v hv
    simp only [ParticleField.positionsGen, List.mem_map, List.mem_range] at hv
    obtain ⟨i, -, rfl⟩ := hv
    obtain ⟨h1, h2⟩ := h (3 * i)
    obtain ⟨h3, h4⟩ := h (3 * i + 1)
    obtain ⟨h5, h6⟩ := h (3 * i + 2)
    refine ⟨⟨?_, ?_⟩, ⟨?_, ?_⟩, ?_, ?_⟩ <;> dsimp only <;> nlinarith

/-- Witness for the C4 theorem with the constant draw 0. -/
theorem particle_gen_count_and_bounds_witness :
    (∀ n : ℕ, 0 ≤ (fun _ : ℕ => (0 : ℝ)) n ∧ (fun _ : ℕ => (0 : ℝ)) n < 1) ∧
    ((ParticleField.positionsGen 200 (fun _ => 0)).length = 200 ∧
     ∀ v ∈ ParticleField.positionsGen 200 (fun _ => 0),
       (-10 ≤ v.x ∧ v.x ≤ 10) ∧ (-10 ≤ v.y ∧ v.y ≤ 10) ∧
       (-5 ≤ v.z ∧ v.z ≤ 5)) :=
  ⟨fun n => by norm_num,
   particle_gen_count_and_bounds (fun _ => 0) (fun n => by norm_num)⟩

/-- C5 counterexample: the aggregate y angle is assigned, not
incremented: one update at t = 1 from a state with y angle 1 yields
0.02 = 1 * 0.02, not the 1 + 0.02 * 1 = 1.02 an increment would give. -/
theorem particle_rot_assigned_not_incremented :
    (ParticleField.useFrame 1 ⟨[], ⟨0, 1, 0⟩⟩).rot.y = 0.02 ∧
    ((0.02 : ℝ) ≠ 1 + 0.02 * 1) := by
  constructor
  · show (1 : ℝ) * 0.02 = 0.02
    norm_num
  · norm_num

/-- C5 amended: the per-frame update of the particle field assigns the
aggregate angles as pure functions of elapsed time:
rot.y = t * 0.02 and rot.x = sin(t * 0.01) * 0.1. -/
theorem particle_rot_update_formula (t : ℝ) (f : PField) :
    (ParticleField.useFrame t f).rot.y = t * 0.02 ∧
    (ParticleField.useFrame t f).rot.x = Real.sin (t * 0.01) * 0.1 :=
  ⟨rfl, rfl⟩

/-- C6: any sequence of per-frame updates leaves the generated positions
of the particle field unchanged, and a single update writes only the two
aggregate angle scalars x and y (z is also untouched). -/
theorem particle_positions_never_revisited (f : PField) (ts : List ℝ) :
    (ts.foldl (fun g t => ParticleField.useFrame t g) f).positions
      = f.positions ∧
    ∀ t, (ParticleField.useFrame t f).positions = f.positions ∧
      (ParticleField.useFrame t f).rot.z = f.rot.z := by
  constructor
  · induction ts generalizing f with
    | nil => rfl
    | cons a as ih => exact ih (ParticleField.useFrame a f)
  · exact fun t => ⟨rfl, rfl⟩

/-- C7: the two theme modes build scenes that agree on everything except
color strings: same camera, same lights up to color, same orb geometry
parameters (position, speed, distort, size), same ring positions, same
particle count; and the orb animators, which read only the speed prop,
produce identical transforms at every elapsed time in both modes. -/
theorem theme_mode_changes_colors_only :
    (CosmicScene true).camera = (CosmicScene false).camera ∧
    (CosmicScene true).lights.map LightCfg.geom
      = (CosmicScene false).lights.map LightCfg.geom ∧
    (CosmicScene true).orbs.map OrbCfg.geom
      = (CosmicScene false).orbs.map OrbCfg.geom ∧
    (CosmicScene true).rings.map RingCfg.rpos
      = (CosmicScene false).rings.map RingCfg.rpos ∧
    (CosmicScene true).particleCount = (CosmicScene false).particleCount ∧
    ∀ (t : ℝ) (m : Transform),
      (CosmicScene true).orbs.map (fun o => CosmicOrb.useFrame o.speed t m)
        = (CosmicScene false).orbs.map
            (fun o => CosmicOrb.useFrame o.speed t m) :=
  ⟨rfl, rfl, rfl, rfl, rfl, fun _ _ => rfl⟩

/-- C8 counterexample: a negative particle count is not rejected by any
validation in the scene code; the failure it produces is the unhandled
host RangeError of the typed-array allocation, and the degenerate count 0
is accepted silently, yielding an empty field. -/
theorem negative_count_is_host_range_error :
    ParticleField.init (-1) (fun _ => 0)
      = Except.error (InitError.hostRangeError "invalid typed array length") ∧
    ParticleField.init 0 (fun _ => 0) = Except.ok [] :=
  ⟨rfl, rfl⟩

/-- C8 amended: the construction performs no parameter validation of its
own: every non-negative count (including 0) is accepted silently and
yields that many positions, and a negative count fails only through the
host typed-array RangeError; the bounds are hard-coded constants
(20, 20, 10), so zero-sized bounds cannot arise at this call site. -/
theorem construction_unvalidated (count : ℤ) (rand : ℕ → ℝ) :
    (0 ≤ count →
      ParticleField.init count rand
        = Except.ok (ParticleField.positionsGen count.toNat rand)) ∧
    (count < 0 →
      ParticleField.init count rand
        = Except.error (InitError.hostRangeError
            "invalid typed array length")) := by
  constructor
  · intro h
    simp [ParticleField.init, not_lt.mpr h]
  · intro h
    simp [ParticleField.init, h]

/-- Witness for the amended C8 theorem at counts 5 and -1. -/
theorem construction_unvalidated_witness :
    ParticleField.init 5 (fun _ => 0)
      = Except.ok (ParticleField.positionsGen (5 : ℤ).toNat (fun _ => 0)) ∧
    ParticleField.init (-1) (fun _ => 0)
      = Except.error (InitError.hostRangeError
          "invalid typed array length") :=
  ⟨(construction_unvalidated 5 (fun _ => 0)).1 (by norm_num),
   (construction_unvalidated (-1) (fun _ => 0)).2 (by norm_num)⟩

/-- C9: no animator writes the base position: every callback leaves the
x and z translation untouched, and all of them leave y untouched as well
except the two explicit vertical bob entities, GlassOrb
(pos.y = base_y + sin(t * 0.5) * 0.3) and GeoSphere
(pos.y = base_y + sin(t * 0.5) * 0.2); all the remaining callbacks write
only spin components. -/
theorem base_position_preserved (p : AnimParams) (t : ℝ) (m : Transform) :
    (animate .cosmicOrb p t m).pos = m.pos ∧
    (animate .floatingRing p t m).pos = m.pos ∧
    (animate .organicBlob p t m).pos = m.pos ∧
    (animate .leafShape p t m).pos = m.pos ∧
    (animate .neonTorus p t m).pos = m.pos ∧
    (animate .neonOctahedron p t m).pos = m.pos ∧
    (animate .geoBlock p t m).pos = m.pos ∧
    (animate .geoCylinder p t m).pos = m.pos ∧
    (animate .particleCloud p t m).pos = m.pos ∧
    ((animate .glassOrb p t m).pos.x = m.pos.x ∧
     (animate .glassOrb p t m).pos.z = m.pos.z ∧
     (animate .glassOrb p t m).pos.y
       = p.basePos.y + Real.sin (t * 0.5) * 0.3) ∧
    ((animate .geoSphere p t m).pos.x = m.pos.x ∧
     (animate .geoSphere p t m).pos.z = m.pos.z ∧
     (animate .geoSphere p t m).pos.y
       = p.basePos.y + Real.sin (t * 0.5) * 0.2) :=
  ⟨rfl, rfl, rfl, rfl, rfl, rfl, rfl, rfl, rfl,
   ⟨rfl, rfl, rfl⟩, ⟨rfl, rfl, rfl⟩⟩

/-- C10: every callback that accumulates the y angle by a fixed per-frame
increment (the orb by 0.003 * speed for positive speed, the octahedron by
0.01, the blob by 0.002, and likewise the glass orb, leaf and block)
strictly increases it on every frame, whatever elapsed-time value the
frame supplies. -/
theorem accumulated_spin_strictly_increases (p : AnimParams) (t : ℝ)
    (m : Transform) :
    (0 < p.speed → m.rot.y < (animate .cosmicOrb p t m).rot.y) ∧
    m.rot.y < (animate .neonOctahedron p t m).rot.y ∧
    m.rot.y < (animate .organicBlob p t m).rot.y ∧
    m.rot.y < (animate .glassOrb p t m).rot.y ∧
    m.rot.y < (animate .leafShape p t m).rot.y ∧
    m.rot.y < (animate .geoBlock p t m).rot.y := by
  refine ⟨fun h => ?_, ?_, ?_, ?_, ?_, ?_⟩
  · show m.rot.y < m.rot.y + 0.003 * p.speed
    nlinarith
  · show m.rot.y < m.rot.y + 0.01
    linarith
  · show m.rot.y < m.rot.y + 0.002
    linarith
  · show m.rot.y < m.rot.y + 0.003
    linarith
  · show m.rot.y < m.rot.y + 0.003
    linarith
  · show m.rot.y < m.rot.y + 0.005
    linarith

/-- Witness for the C10 theorem at the speed-1 orb and t = 0. -/
theorem accumulated_spin_strictly_increases_witness :
    (0 : ℝ) < orbP1.speed ∧
    zeroT.rot.y < (animate .cosmicOrb orbP1 0 zeroT).rot.y :=
  ⟨by norm_num [orbP1],
   (accumulated_spin_strictly_increases orbP1 0 zeroT).1
     (by norm_num [orbP1])⟩
